import Mathlib

/-!
Shallow embedding of the view components of the examined desktop Git client
UI excerpt: the commit-author avatar (`commit-message-avatar.tsx`), the
push/pull toolbar button, the generic `Popover`, the delete-remote-branch
dialog (`popover.tsx`), and the pull-request quick view
(`pull-request-quick-view.tsx`).  Event handlers are embedded as functions
from the component's props/state to the list of observable actions they
perform, in program order; render functions are embedded as functions from
props/state to a record of the rendered facts the development reasons about.
-/

/-- Warning type of the commit-author avatar
(`CommitMessageWarningType` in `commit-message-avatar.tsx`). -/
inductive CommitMessageWarningType
  | none
  | misattribution
  | disallowedEmail
deriving DecidableEq

/-- Observable actions of the `CommitMessageAvatar` handlers, in program
order.  `closePopover` is the `this.closePopover()` state update;
`updateEmail s` is the (not awaited) call `this.props.onUpdateEmail(s)`.
Because the source performs these synchronously one after the other, the
position in the emitted list is the program order, and a call that is not
awaited settles no earlier than its position in the list. -/
inductive AvatarEvent
  | closePopover
  | updateEmail (email : String)
deriving DecidableEq

/-- `true` exactly on `updateEmail` events. -/
def AvatarEvent.isUpdate : AvatarEvent → Bool
  | .updateEmail _ => true
  | .closePopover => false

/-- Embeds `onUpdateEmailClick` of `CommitMessageAvatar`
(`commit-message-avatar.tsx`): after `event.preventDefault()` it calls
`this.closePopover()`, then, when `this.props.email !== this.state.accountEmail`,
calls `this.props.onUpdateEmail(this.state.accountEmail)` without awaiting it.
`email` is `props.email` (`string | undefined`, hence `Option String`);
`accountEmail` is `state.accountEmail`. -/
def onUpdateEmailClick (email : Option String) (accountEmail : String) :
    List AvatarEvent :=
  [AvatarEvent.closePopover] ++
    (if email ≠ some accountEmail then [AvatarEvent.updateEmail accountEmail]
     else [])

/-- The property C1 asserts of an invocation trace: every close of the
popover happens only after the `onUpdateEmail` call has been issued and
settled, i.e. strictly after the call in program order. -/
def closesOnlyAfterUpdate (tr : List AvatarEvent) : Prop :=
  ∀ i : Fin tr.length, tr.get i = AvatarEvent.closePopover →
    ∃ j : Fin tr.length, (j : Nat) < (i : Nat) ∧ (tr.get j).isUpdate = true

instance (tr : List AvatarEvent) : Decidable (closesOnlyAfterUpdate tr) := by
  unfold closesOnlyAfterUpdate
  infer_instance

/-- C1 (counterexample): at the concrete input where the configured email
is `"old@example.com"` and the selected account email is
`"new@example.com"`, the handler emits the popover close first and the
`onUpdateEmail` call after it, so the popover does not close only after the
call settles. -/
theorem onUpdateEmailClick_close_precedes_call :
    ¬ closesOnlyAfterUpdate
        (onUpdateEmailClick (some "old@example.com") "new@example.com") := by
  decide

/-- C1 (amended): in every invocation of the Update Email handler the
popover close is the first action, and the `onUpdateEmail` call, when it is
made at all, is issued after the close and is not awaited: the trace is the
close followed by either nothing or the single update call. -/
theorem onUpdateEmailClick_close_first (email : Option String)
    (accountEmail : String) :
    ∃ tl, onUpdateEmailClick email accountEmail = AvatarEvent.closePopover :: tl
      ∧ (tl = [] ∨ tl = [AvatarEvent.updateEmail accountEmail]) := by
  unfold onUpdateEmailClick
  by_cases h : email = some accountEmail
  · exact ⟨[], by simp [h], Or.inl rfl⟩
  · exact ⟨[AvatarEvent.updateEmail accountEmail], by simp [h], Or.inr rfl⟩

/-- C10: the Update Email handler always closes the popover; it invokes
`onUpdateEmail` with the selected account email exactly when that email
differs from the configured `props.email`, and performs nothing else. -/
theorem onUpdateEmailClick_suppresses_noop (email : Option String)
    (accountEmail : String) :
    AvatarEvent.closePopover ∈ onUpdateEmailClick email accountEmail
      ∧ (email = some accountEmail →
          onUpdateEmailClick email accountEmail = [AvatarEvent.closePopover])
      ∧ (email ≠ some accountEmail →
          onUpdateEmailClick email accountEmail =
            [AvatarEvent.closePopover, AvatarEvent.updateEmail accountEmail]) := by
  unfold onUpdateEmailClick
  by_cases h : email = some accountEmail
  · simp [h]
  · simp [h]

/-- C10 (witness): at the concrete input where the configured email is
`"a@b"` and the selected email is also `"a@b"`, the handler closes the
popover and performs no update call; the hypotheses of the two implications
are settled at this input. -/
theorem onUpdateEmailClick_suppresses_noop_witness :
    AvatarEvent.closePopover ∈ onUpdateEmailClick (some "a@b") "a@b"
      ∧ ((some "a@b" : Option String) = some "a@b" →
          onUpdateEmailClick (some "a@b") "a@b" = [AvatarEvent.closePopover])
      ∧ ((some "a@b" : Option String) ≠ some "a@b" →
          onUpdateEmailClick (some "a@b") "a@b" =
            [AvatarEvent.closePopover, AvatarEvent.updateEmail "a@b"]) :=
  onUpdateEmailClick_suppresses_noop (some "a@b") "a@b"

/-- Ahead/behind count of the current branch relative to its upstream
(`IAheadBehind` in `models/branch`, modelled from its use in
`commit-message-avatar.tsx`). -/
structure IAheadBehind where
  ahead : Nat
  behind : Nat
deriving DecidableEq

/-- The rendered ahead/behind badge: the figure shown next to the up arrow
and the figure shown next to the down arrow, `none` when the corresponding
span is not rendered. -/
structure AheadBehindBadge where
  up : Option Nat
  down : Option Nat
deriving DecidableEq

/-- Embeds `renderAheadBehind` (`commit-message-avatar.tsx`): returns no
badge when `ahead`, `behind` and `numTagsToPush` are all zero; otherwise a
badge whose up-arrow span shows `ahead + numTagsToPush` when
`ahead > 0 || numTagsToPush > 0`, and whose down-arrow span shows `behind`
when `behind > 0`. -/
def renderAheadBehind (aheadBehind : IAheadBehind) (numTagsToPush : Nat) :
    Option AheadBehindBadge :=
  let ahead := aheadBehind.ahead
  let behind := aheadBehind.behind
  if ahead = 0 ∧ behind = 0 ∧ numTagsToPush = 0 then
    none
  else
    some
      { up :=
          if 0 < ahead ∨ 0 < numTagsToPush then some (ahead + numTagsToPush)
          else none
        down := if 0 < behind then some behind else none }

/-- C2 (counterexample): with `ahead = 1`, `behind = 0` and one tag to
push, the rendered up-arrow figure is `2`, not the ahead count `1`; and
with both counts zero but one tag to push, a badge is rendered. -/
theorem renderAheadBehind_not_raw_counts :
    (renderAheadBehind ⟨1, 0⟩ 1).map AheadBehindBadge.up ≠ some (some 1)
      ∧ renderAheadBehind ⟨0, 0⟩ 1 ≠ none := by
  decide

/-- C2 (amended): the badge is absent exactly when the ahead count, the
behind count and the tags-to-push count are all zero; the up-arrow figure
equals the ahead count plus the tags-to-push count and is shown exactly
when either is positive; the down-arrow figure equals the behind count and
is shown exactly when it is positive. -/
theorem renderAheadBehind_spec (aheadBehind : IAheadBehind)
    (numTagsToPush : Nat) :
    (renderAheadBehind aheadBehind numTagsToPush = none ↔
        aheadBehind.ahead = 0 ∧ aheadBehind.behind = 0 ∧ numTagsToPush = 0)
      ∧ (renderAheadBehind aheadBehind numTagsToPush).map AheadBehindBadge.up =
          (if aheadBehind.ahead = 0 ∧ aheadBehind.behind = 0 ∧ numTagsToPush = 0
           then none
           else some (if 0 < aheadBehind.ahead ∨ 0 < numTagsToPush
                      then some (aheadBehind.ahead + numTagsToPush) else none))
      ∧ (renderAheadBehind aheadBehind numTagsToPush).map AheadBehindBadge.down =
          (if aheadBehind.ahead = 0 ∧ aheadBehind.behind = 0 ∧ numTagsToPush = 0
           then none
           else some (if 0 < aheadBehind.behind
                      then some aheadBehind.behind else none)) := by
  by_cases h : aheadBehind.ahead = 0 ∧ aheadBehind.behind = 0 ∧ numTagsToPush = 0
  · simp [renderAheadBehind, h]
  · simp [renderAheadBehind, h]

/-- A repository reference (`Repository` in `models/repository`, modelled
from its use in this excerpt: it identifies the repository and exposes
whether it has an associated GitHub repository). -/
structure Repository where
  id : Nat
  gitHubRepository : Option Nat
deriving DecidableEq

/-- A branch reference (`Branch` in `models/branch`, modelled from its use
in the delete-remote-branch dialog). -/
structure Branch where
  name : String
deriving DecidableEq

/-- Observable actions of `DeleteRemoteBranch.deleteBranch`
(`popover.tsx`), in program order.  `awaitedDeleteRemoteBranch` stands for
`await dispatcher.deleteRemoteBranch(repository, branch)`: the call is
issued and, because it is awaited, it has settled before any later event in
the list occurs. -/
inductive DeleteBranchEvent
  | setIsDeleting (value : Bool)
  | awaitedDeleteRemoteBranch (repository : Repository) (branch : Branch)
  | onDeleted (repository : Repository)
  | onDismissed
deriving DecidableEq

/-- Embeds `DeleteRemoteBranch.deleteBranch` (`popover.tsx`): it sets
`isDeleting` to `true`, awaits `dispatcher.deleteRemoteBranch`, then calls
`this.props.onDeleted(repository)` and finally `this.props.onDismissed()`.
There is no branch on the outcome of the awaited call: the trace is the
same straight line for every input. -/
def deleteBranch (repository : Repository) (branch : Branch) :
    List DeleteBranchEvent :=
  [DeleteBranchEvent.setIsDeleting true,
   DeleteBranchEvent.awaitedDeleteRemoteBranch repository branch,
   DeleteBranchEvent.onDeleted repository,
   DeleteBranchEvent.onDismissed]

/-- C3: for every repository and branch, the submit handler of the
delete-remote-branch dialog performs exactly this sequence: set
`isDeleting` to `true`, await the dispatcher's `deleteRemoteBranch` call,
then invoke `onDeleted` with the repository, then `onDismissed`; it has no
catch/retry branch, so the closing events follow unconditionally once the
call settles. -/
theorem deleteBranch_trace (repository : Repository) (branch : Branch) :
    deleteBranch repository branch =
      [DeleteBranchEvent.setIsDeleting true,
       DeleteBranchEvent.awaitedDeleteRemoteBranch repository branch,
       DeleteBranchEvent.onDeleted repository,
       DeleteBranchEvent.onDismissed] := rfl

/-- Foldout kinds (`FoldoutType` in `lib/app-state`, modelled from its use
here: only `PushPull` is referenced). -/
inductive FoldoutType
  | pushPull
deriving DecidableEq

/-- Fetch kinds (`FetchType` in `models/fetch`, modelled from its use here:
only `UserInitiatedTask` is referenced). -/
inductive FetchType
  | userInitiatedTask
deriving DecidableEq

/-- A call on the external command-dispatch object (`Dispatcher`), as
issued by the push/pull toolbar button's click handlers. -/
inductive DispatcherCall
  | closeFoldout (foldout : FoldoutType)
  | push (repository : Repository)
  | pull (repository : Repository)
  | fetch (repository : Repository) (fetchType : FetchType)
  | confirmOrForcePush (repository : Repository)
deriving DecidableEq

/-- The repository a dispatcher call carries as identifying data, `none`
for the panel-closing call. -/
def DispatcherCall.carriedRepository : DispatcherCall → Option Repository
  | .closeFoldout _ => none
  | .push r => some r
  | .pull r => some r
  | .fetch r _ => some r
  | .confirmOrForcePush r => some r

namespace PushPullButton

/-- Embeds `PushPullButton.push`: `this.closeDropdown()` (which calls
`dispatcher.closeFoldout(FoldoutType.PushPull)`) followed by
`dispatcher.push(this.props.repository)`. -/
def push (repository : Repository) : List DispatcherCall :=
  [DispatcherCall.closeFoldout FoldoutType.pushPull,
   DispatcherCall.push repository]

/-- Embeds `PushPullButton.pull`: close the push/pull foldout, then
`dispatcher.pull(this.props.repository)`. -/
def pull (repository : Repository) : List DispatcherCall :=
  [DispatcherCall.closeFoldout FoldoutType.pushPull,
   DispatcherCall.pull repository]

/-- Embeds `PushPullButton.fetch`: close the push/pull foldout, then
`dispatcher.fetch(this.props.repository, FetchType.UserInitiatedTask)`. -/
def fetch (repository : Repository) : List DispatcherCall :=
  [DispatcherCall.closeFoldout FoldoutType.pushPull,
   DispatcherCall.fetch repository FetchType.userInitiatedTask]

/-- Embeds `PushPullButton.forcePushWithLease`: close the push/pull
foldout, then `dispatcher.confirmOrForcePush(this.props.repository)`. -/
def forcePushWithLease (repository : Repository) : List DispatcherCall :=
  [DispatcherCall.closeFoldout FoldoutType.pushPull,
   DispatcherCall.confirmOrForcePush repository]

end PushPullButton

/-- The shape C4 asserts of a click-handler trace: the first action closes
the push/pull panel, and the rest of the trace consists of exactly one
dispatch call carrying the given repository as identifying data. -/
def closesPanelThenDispatchesOnce (repository : Repository)
    (tr : List DispatcherCall) : Prop :=
  tr.head? = some (DispatcherCall.closeFoldout FoldoutType.pushPull)
    ∧ tr.length = 2
    ∧ tr.filterMap DispatcherCall.carriedRepository = [repository]

/-- C4: each of the four click handlers of the push/pull toolbar button
(push, pull, fetch, force-push-with-lease) first closes the push/pull
panel and then issues exactly one command-dispatch call, passing the
current repository as identifying data. -/
theorem pushPullButton_handlers_close_then_dispatch (repository : Repository) :
    closesPanelThenDispatchesOnce repository (PushPullButton.push repository)
      ∧ closesPanelThenDispatchesOnce repository (PushPullButton.pull repository)
      ∧ closesPanelThenDispatchesOnce repository (PushPullButton.fetch repository)
      ∧ closesPanelThenDispatchesOnce repository
          (PushPullButton.forcePushWithLease repository) := by
  refine ⟨⟨rfl, rfl, ?_⟩, ⟨rfl, rfl, ?_⟩, ⟨rfl, rfl, ?_⟩, ⟨rfl, rfl, ?_⟩⟩ <;>
    simp [PushPullButton.push, PushPullButton.pull, PushPullButton.fetch,
      PushPullButton.forcePushWithLease, DispatcherCall.carriedRepository]

/-- The user whose avatar is displayed (`IAvatarUser` in `models/avatar`,
modelled from its use in `commit-message-avatar.tsx`: a possibly-empty
name and an email). -/
structure IAvatarUser where
  name : Option String
  email : String
deriving DecidableEq

/-- Props of `CommitMessageAvatar` that its render output depends on. -/
structure CommitMessageAvatarProps where
  user : Option IAvatarUser
  email : Option String
  warningType : CommitMessageWarningType
  emailRuleErrors : Option (List String)
  isEnterpriseAccount : Bool
  accountEmails : List String
  preferredAccountEmail : String
deriving DecidableEq

/-- State of `CommitMessageAvatar`. -/
structure CommitMessageAvatarState where
  isPopoverOpen : Bool
  accountEmail : String
deriving DecidableEq

/-- The rendered facts of the avatar's warning popover that this
development reasons about. -/
structure AvatarPopoverRender where
  header : String
  showsMisattributionRow : Bool
  showsDisallowedEmailRow : Bool
  selectValue : String
  updateEmailTitle : String
deriving DecidableEq

/-- Embeds `CommitMessageAvatar.renderPopover`
(`commit-message-avatar.tsx`): the header string is chosen by the switch on
`warningType` (and stays empty for `none`), the explanatory row matches the
warning type, the select shows the selected account email, and the submit
button title depends on the platform flag `__DARWIN__`. -/
def renderPopover (darwin : Bool) (props : CommitMessageAvatarProps)
    (state : CommitMessageAvatarState) : AvatarPopoverRender :=
  { header :=
      match props.warningType with
      | .misattribution => "This commit will be misattributed"
      | .disallowedEmail => "This email address may be disallowed"
      | .none => ""
    showsMisattributionRow := props.warningType = .misattribution
    showsDisallowedEmailRow := props.warningType = .disallowedEmail
    selectValue := state.accountEmail
    updateEmailTitle := if darwin then "Update Email" else "Update email" }

/-- The rendered facts of the avatar component that this development
reasons about: whether the warning-badge button is rendered, the ARIA
label of the avatar, and the popover render when it is open. -/
structure AvatarRender where
  showsWarningBadgeButton : Bool
  ariaLabel : String
  popover : Option AvatarPopoverRender
deriving DecidableEq

/-- Embeds `CommitMessageAvatar.render` (`commit-message-avatar.tsx`): the
warning-badge button is rendered exactly when `warningType !== 'none'`,
the ARIA label is chosen by the switch on `warningType`, and the popover is
rendered exactly when `state.isPopoverOpen`. -/
def render (darwin : Bool) (props : CommitMessageAvatarProps)
    (state : CommitMessageAvatarState) : AvatarRender :=
  { showsWarningBadgeButton := props.warningType ≠ .none
    ariaLabel :=
      match props.warningType with
      | .none => "Show Commit Author Details"
      | .misattribution => "Commit may be misattributed. View warning."
      | .disallowedEmail => "Email address may be disallowed. View warning."
    popover :=
      if state.isPopoverOpen then some (renderPopover darwin props state)
      else none }

/-- C5: whenever `warningType = 'misattribution'`, the avatar renders the
warning-badge button, and when the popover is open its header reads
`This commit will be misattributed`. -/
theorem render_misattribution_badge_and_header (darwin : Bool)
    (props : CommitMessageAvatarProps) (state : CommitMessageAvatarState)
    (hw : props.warningType = .misattribution) :
    (render darwin props state).showsWarningBadgeButton = true
      ∧ (render darwin props state).popover.map AvatarPopoverRender.header =
          (if state.isPopoverOpen
           then some "This commit will be misattributed" else none) := by
  cases h : state.isPopoverOpen <;>
    simp [render, renderPopover, hw, h]

/-- C5 (witness): at a concrete props record with
`warningType = 'misattribution'` and the popover open, the badge is
rendered and the header is the misattribution message. -/
theorem render_misattribution_badge_and_header_witness :
    (render false
        ⟨none, none, .misattribution, none, false, [], "p@q"⟩
        ⟨true, "p@q"⟩).showsWarningBadgeButton = true
      ∧ (render false
            ⟨none, none, .misattribution, none, false, [], "p@q"⟩
            ⟨true, "p@q"⟩).popover.map AvatarPopoverRender.header =
          (if (true : Bool)
           then some "This commit will be misattributed" else none) :=
  render_misattribution_badge_and_header false
    ⟨none, none, .misattribution, none, false, [], "p@q"⟩ ⟨true, "p@q"⟩ rfl

/-- The string values of the `PopoverAnchorPosition` string enum
(`popover.tsx`), in declaration order: `Top = 'top'`,
`TopRight = 'top-right'`, `TopLeft = 'top-left'`, `Left = 'left'`,
`LeftTop = 'left-top'`, `LeftBottom = 'left-bottom'`, `Bottom = 'bottom'`,
`RightTop = 'right-top'`, `Right = 'right'`. -/
def popoverAnchorPositionValues : List String :=
  ["top", "top-right", "top-left", "left", "left-top", "left-bottom",
   "bottom", "right-top", "right"]

/-- Embeds `Popover.getFloatingPlacementForAnchorPosition` (`popover.tsx`).
TypeScript string enums are strings at runtime, so the switch is embedded
as a comparison chain over the enum's string values, its cases in source
order; the `default` branch, which calls `assertNever` and throws, is
embedded as `none`.  (The dead `if (1 !== NaN)` block at the top of the
source function has an empty body — its `return` is commented out — and is
omitted.) -/
def getFloatingPlacementForAnchorPosition (anchorPosition : String) :
    Option String :=
  if anchorPosition = "top" then some "top"
  else if anchorPosition = "top-left" then some "top-start"
  else if anchorPosition = "top-right" then some "top-end"
  else if anchorPosition = "left" then some "left"
  else if anchorPosition = "left-top" then some "left-start"
  else if anchorPosition = "left-bottom" then some "left-end"
  else if anchorPosition = "right-top" then some "right-start"
  else if anchorPosition = "right" then some "right"
  else if anchorPosition = "bottom" then some "bottom"
  else none

/-- C6: the mapping from anchor position to floating placement is total on
the nine `PopoverAnchorPosition` values and sends each to the claimed
placement, so the `assertNever` default branch is unreachable for every
enum value. -/
theorem getFloatingPlacement_total :
    getFloatingPlacementForAnchorPosition "top" = some "top"
      ∧ getFloatingPlacementForAnchorPosition "top-left" = some "top-start"
      ∧ getFloatingPlacementForAnchorPosition "top-right" = some "top-end"
      ∧ getFloatingPlacementForAnchorPosition "left" = some "left"
      ∧ getFloatingPlacementForAnchorPosition "left-top" = some "left-start"
      ∧ getFloatingPlacementForAnchorPosition "left-bottom" = some "left-end"
      ∧ getFloatingPlacementForAnchorPosition "right-top" = some "right-start"
      ∧ getFloatingPlacementForAnchorPosition "right" = some "right"
      ∧ getFloatingPlacementForAnchorPosition "bottom" = some "bottom"
      ∧ ∀ p ∈ popoverAnchorPositionValues,
          (getFloatingPlacementForAnchorPosition p).isSome = true := by
  decide

/-- C6 (witness): the totality clause applied at the concrete enum value
`'left-bottom'` — used by the commit-author avatar popover — yields a
placement. -/
theorem getFloatingPlacement_total_witness :
    (getFloatingPlacementForAnchorPosition "left-bottom").isSome = true :=
  getFloatingPlacement_total.2.2.2.2.2.2.2.2.2 "left-bottom" (by decide)

/-- A DOM element, modelled by the set of DOM nodes `n` (identified by
numbers) for which `element.contains(n)` is `true`. -/
structure DomElement where
  containedNodes : List Nat
deriving DecidableEq

/-- `element.contains(node)` of the DOM. -/
def DomElement.containsNode (e : DomElement) (n : Nat) : Bool :=
  n ∈ e.containedNodes

/-- The popover's container `div`, as seen through `containerDivRef`:
its `parentElement`, which is `null` for a detached element. -/
structure PopoverContainer where
  parentElement : Option DomElement
deriving DecidableEq

/-- Embeds `Popover.onDocumentClick` (`popover.tsx`), returning whether the
`onClickOutside` callback is invoked.  `containerRef` is
`containerDivRef.current` (`null` embedded as `none`); `hasOnClickOutside`
is whether `props.onClickOutside !== undefined`; `target` is the click
target, `none` when it is not a DOM `Node` instance.  The callback is
invoked exactly when the ref and its parent element exist, the target is a
node not contained in the parent element, and the callback is provided. -/
def onDocumentClick (containerRef : Option PopoverContainer)
    (hasOnClickOutside : Bool) (target : Option Nat) : Bool :=
  match containerRef with
  | none => false
  | some ref =>
    match ref.parentElement with
    | none => false
    | some parent =>
      match target with
      | none => false
      | some t => !(parent.containsNode t) && hasOnClickOutside

/-- C7: for a mounted popover whose container has a parent element, a
document click on a node outside that parent element invokes
`onClickOutside` exactly when the callback is provided, and a click on a
node inside the parent element never invokes it: the invocation equals
`not contained AND callback provided`. -/
theorem onDocumentClick_outside_dismisses (ref : PopoverContainer)
    (parent : DomElement) (t : Nat) (hasOnClickOutside : Bool)
    (hp : ref.parentElement = some parent) :
    onDocumentClick (some ref) hasOnClickOutside (some t) =
      (!(parent.containsNode t) && hasOnClickOutside) := by
  simp [onDocumentClick, hp]

/-- C7 (witness): with a parent element containing exactly node `5` and a
provided callback, a click on node `3` (outside) invokes the callback and
a click on node `5` (inside) does not; both follow from the theorem applied
at these concrete inputs. -/
theorem onDocumentClick_outside_dismisses_witness :
    onDocumentClick (some ⟨some ⟨[5]⟩⟩) true (some 3) =
        (!(DomElement.containsNode ⟨[5]⟩ 3) && true)
      ∧ onDocumentClick (some ⟨some ⟨[5]⟩⟩) true (some 5) =
        (!(DomElement.containsNode ⟨[5]⟩ 5) && true) :=
  ⟨onDocumentClick_outside_dismisses ⟨some ⟨[5]⟩⟩ ⟨[5]⟩ 3 true rfl,
   onDocumentClick_outside_dismisses ⟨some ⟨[5]⟩⟩ ⟨[5]⟩ 5 true rfl⟩

/-- The `body` field of a pull request (`string | null | undefined` at the
use site in `pull-request-quick-view.tsx`). -/
inductive PullRequestBody
  | undef
  | nullBody
  | text (s : String)
deriving DecidableEq

/-- Embeds the `baseHref` field of `PullRequestQuickView`
(`pull-request-quick-view.tsx`). -/
def baseHref : String := "https://github.com/"

/-- JavaScript `String.prototype.trim` on the character list: drop leading
and trailing whitespace characters. -/
def trimChars (l : List Char) : List Char :=
  ((l.dropWhile Char.isWhitespace).reverse.dropWhile Char.isWhitespace).reverse

/-- JavaScript `String.prototype.trim`, modelled structurally so it
evaluates on concrete strings. -/
def jsTrim (s : String) : String :=
  String.mk (trimChars s.data)

/-- Embeds the `displayBody` computation of `PullRequestQuickView.renderPR`
(`pull-request-quick-view.tsx`):
`body !== undefined && body !== null && body.trim() !== '' ? body :
'_No description provided._'`. -/
def displayBody : PullRequestBody → String
  | .text s => if jsTrim s ≠ "" then s else "_No description provided._"
  | .undef => "_No description provided._"
  | .nullBody => "_No description provided._"

/-- C8: the markdown handed to the sandboxed renderer is the pull request
body exactly when the body is defined, non-null and not whitespace-only,
and the literal fallback otherwise; the base link prefix is always
`https://github.com/`. -/
theorem displayBody_spec :
    (∀ s : String, jsTrim s ≠ "" → displayBody (.text s) = s)
      ∧ (∀ s : String, jsTrim s = "" →
          displayBody (.text s) = "_No description provided._")
      ∧ displayBody .undef = "_No description provided._"
      ∧ displayBody .nullBody = "_No description provided._"
      ∧ baseHref = "https://github.com/" := by
  refine ⟨fun s hs => ?_, fun s hs => ?_, rfl, rfl, rfl⟩ <;>
    simp [displayBody, hs]

/-- C8 (witness): the first two clauses applied at the concrete bodies
`"Fixes a bug."` (kept as is) and `"  "` (whitespace-only, replaced by the
fallback). -/
theorem displayBody_spec_witness :
    displayBody (.text "Fixes a bug.") = "Fixes a bug."
      ∧ displayBody (.text "  ") = "_No description provided._" :=
  ⟨displayBody_spec.1 "Fixes a bug." (by decide),
   displayBody_spec.2.1 "  " (by decide)⟩

/-- Tip state of the repository (`TipState` in `models/tip`, modelled from
its use in the push/pull button). -/
inductive TipState
  | unknown
  | unborn
  | detached
  | valid
deriving DecidableEq

/-- Progress information of the current operation (`Progress` in
`models/progress`, modelled from its use in the push/pull button: a title,
an optional description and a fractional value, the latter embedded as a
pair of naturals). -/
structure Progress where
  title : String
  description : Option String
  value : Nat
deriving DecidableEq

/-- Props of `PushPullButton` that `renderButton` depends on
(`IPushPullButtonProps`); `lastFetched` (a `Date | null`) is embedded as an
optional timestamp. -/
structure PushPullButtonProps where
  aheadBehind : Option IAheadBehind
  remoteName : Option String
  networkActionInProgress : Bool
  lastFetched : Option Nat
  progress : Option Progress
  repository : Repository
  tipState : TipState
  pullWithRebase : Option Bool
  rebaseInProgress : Bool
  isForcePush : Bool
  shouldNudge : Bool
  numTagsToPush : Nat
deriving DecidableEq

/-- The button variant chosen by `PushPullButton.renderButton`, carrying
the arguments the source passes to the corresponding render helper. -/
inductive PushPullButtonVariant
  | progressButton (progress : Progress) (networkActionInProgress : Bool)
  | publishRepositoryButton
  | unbornRepositoryButton
  | detachedHeadButton (rebaseInProgress : Bool)
  | publishBranchButton (isGitHub : Bool) (shouldNudge : Bool)
  | fetchButton (remoteName : String) (aheadBehind : IAheadBehind)
      (numTagsToPush : Nat) (lastFetched : Option Nat)
  | forcePushButton (remoteName : String) (aheadBehind : IAheadBehind)
      (numTagsToPush : Nat) (lastFetched : Option Nat)
  | pullButton (remoteName : String) (aheadBehind : IAheadBehind)
      (numTagsToPush : Nat) (lastFetched : Option Nat) (pullWithRebase : Bool)
  | pushButton (remoteName : String) (aheadBehind : IAheadBehind)
      (numTagsToPush : Nat) (lastFetched : Option Nat)
deriving DecidableEq

/-- Embeds `PushPullButton.renderButton` (`commit-message-avatar.tsx`,
push/pull button part), with its guards in source order: progress, missing
remote, unborn tip, detached tip, missing ahead/behind, all counts zero
(fetch), force push, behind (pull), and finally push.
`pullWithRebase || false` is `Option.getD pullWithRebase false`. -/
def renderButton (props : PushPullButtonProps) : PushPullButtonVariant :=
  match props.progress with
  | some progress =>
    PushPullButtonVariant.progressButton progress props.networkActionInProgress
  | none =>
    match props.remoteName with
    | none => PushPullButtonVariant.publishRepositoryButton
    | some remoteName =>
      if props.tipState = TipState.unborn then
        PushPullButtonVariant.unbornRepositoryButton
      else if props.tipState = TipState.detached then
        PushPullButtonVariant.detachedHeadButton props.rebaseInProgress
      else
        match props.aheadBehind with
        | none =>
          PushPullButtonVariant.publishBranchButton
            props.repository.gitHubRepository.isSome props.shouldNudge
        | some aheadBehind =>
          if aheadBehind.ahead = 0 ∧ aheadBehind.behind = 0
              ∧ props.numTagsToPush = 0 then
            PushPullButtonVariant.fetchButton remoteName aheadBehind
              props.numTagsToPush props.lastFetched
          else if props.isForcePush then
            PushPullButtonVariant.forcePushButton remoteName aheadBehind
              props.numTagsToPush props.lastFetched
          else if 0 < aheadBehind.behind then
            PushPullButtonVariant.pullButton remoteName aheadBehind
              props.numTagsToPush props.lastFetched
              (props.pullWithRebase.getD false)
          else
            PushPullButtonVariant.pushButton remoteName aheadBehind
              props.numTagsToPush props.lastFetched

/-- C9: in `renderButton`, force push takes precedence over pull: when no
progress is shown, a remote name exists, the tip is neither unborn nor
detached, the ahead/behind counts exist and are not all zero together with
the tag count, and `isForcePush` holds, the force-push variant is rendered
— the guard on `behind` is never reached, so this holds even when
`behind > 0`. -/
theorem renderButton_forcePush_over_pull (props : PushPullButtonProps)
    (remoteName : String) (aheadBehind : IAheadBehind)
    (hprog : props.progress = none)
    (hrem : props.remoteName = some remoteName)
    (hunborn : props.tipState ≠ TipState.unborn)
    (hdetached : props.tipState ≠ TipState.detached)
    (hab : props.aheadBehind = some aheadBehind)
    (hnz : ¬(aheadBehind.ahead = 0 ∧ aheadBehind.behind = 0
              ∧ props.numTagsToPush = 0))
    (hfp : props.isForcePush = true) :
    renderButton props =
      PushPullButtonVariant.forcePushButton remoteName aheadBehind
        props.numTagsToPush props.lastFetched := by
  simp [renderButton, hprog, hrem, hunborn, hdetached, hab, hnz, hfp]

/-- C9 (witness): at a concrete props record that is behind its upstream
(`behind = 2 > 0`) with `isForcePush` set, the rendered variant is the
force-push button, not the pull button. -/
theorem renderButton_forcePush_over_pull_witness :
    renderButton
        { aheadBehind := some ⟨1, 2⟩
          remoteName := some "origin"
          networkActionInProgress := false
          lastFetched := none
          progress := none
          repository := ⟨0, none⟩
          tipState := TipState.valid
          pullWithRebase := none
          rebaseInProgress := false
          isForcePush := true
          shouldNudge := false
          numTagsToPush := 0 } =
      PushPullButtonVariant.forcePushButton "origin" ⟨1, 2⟩ 0 none :=
  renderButton_forcePush_over_pull _ "origin" ⟨1, 2⟩ rfl rfl
    (by decide) (by decide) rfl (by decide) rfl
